import Mathlib

/-!
# Verification of the ramhorns `Content` trait (src/ramhorns/src/content.rs)

Shallow embedding of the content-binding protocol of the ramhorns template
engine.  The Rust `Content` trait is generic over implementing types; here the
types that `content.rs` gives implementations for are collected into one
inductive `Value`, and each trait operation becomes a Lean function on `Value`
whose equations follow the corresponding `impl` (or the trait default when the
impl does not override the operation).

Modelling decisions, each tied to the source:
* `Value.str` models both `&str` and `String` (their impls are textually
  identical: truthy iff non-empty, capacity hint = byte length, escaped /
  unescaped / cmark writes).
* `Value.int` models the whole integer family of `impl_number_types!`
  (`u8 … i128, usize, isize`): each impl is `*self != 0`, capacity hint 5,
  `format_unescaped`; the value of any of those types embeds into `Int`.
* `Value.float` models `f32`/`f64` (flag `f32`): truthy iff
  `self.abs() > EPSILON` with the width's machine epsilon; floats are embedded
  as exact rationals, on which `abs` and `>` agree with IEEE semantics for the
  (finite) represented values.
* `Value.map` models both `HashMap<K, V, S>` and `BTreeMap<K, V>` keyed by
  strings: their eight method bodies are textually identical; both dispatch by
  `self.get(name)`, modelled as first-match association-list lookup (map keys
  are unique).
* `Value.list` models both `Vec<T>` and `&[T]` (identical impls).
* `Value.wrap` models the five `impl_pointer_types!` instantiations
  (`&T`, `Box<T>`, `Rc<T>`, `Arc<T>`, `Cow<'_, T>`); the macro generates the
  same forwarding body for each, distinguished here only by a `Wrapper` tag.

The `Encoder` (output sink) is modelled as a trace of write events plus an
optional budget of remaining successful writes, so that an arbitrary failing
sink (fail at the k-th write) is expressible; the error type is opaque in the
source (`E::Error`) and is modelled as `Unit`.

Modelled from the spec: the CommonMark transform `crate::cmark::encode` is an
external collaborator whose source is not part of this core ("markup render
delegates to an external CommonMark transform collaborator"); it is modelled
as emitting a dedicated `Out.cmark` event carrying the input text, distinct
from the `write_escaped` event that `render_escaped` emits.

Modelled from the spec: `Section::render_once` ("render this pre-parsed block
once, using a given value as the new lookup scope, writing to a given sink")
is external; a section is modelled by its write trace as a function of the
scope value (`Sect := Value → List Out`), and `renderOnce` feeds that trace
through the sink, stopping at the first sink failure.
-/

namespace Ramhorns

/-- A single write event observed by the output sink.  `escaped` models
`Encoder::write_escaped`, `unescaped` models `Encoder::write_unescaped`,
`fmtInt`/`fmtFloat` model `Encoder::format_unescaped` applied to a numeric
value, and `cmark` models the external `crate::cmark::encode` transform. -/
inductive Out where
  | escaped (s : String)
  | unescaped (s : String)
  | fmtInt (n : Int)
  | fmtFloat (q : ℚ) (f32 : Bool)
  | cmark (s : String)
  deriving DecidableEq, Repr

/-- The output sink (`Encoder`): the trace of successful writes so far, and an
optional budget of writes that will still succeed (`none` = the sink never
fails).  A write past the budget returns the sink's opaque error, modelled as
`Unit`. -/
structure Sink where
  written : List Out
  budget : Option Nat
  deriving DecidableEq, Repr

/-- One write through the sink: fails (writing nothing) when the budget is
exhausted, otherwise appends the event and decrements the budget. -/
def Sink.write (s : Sink) (o : Out) : Except Unit Sink :=
  match s.budget with
  | none => .ok ⟨s.written ++ [o], none⟩
  | some 0 => .error ()
  | some (n + 1) => .ok ⟨s.written ++ [o], some n⟩

/-- Feed a list of write events through the sink in order, stopping at the
first failing write. -/
def emit : Sink → List Out → Except Unit Sink
  | s, [] => .ok s
  | s, o :: rest =>
    match s.write o with
    | .ok s' => emit s' rest
    | .error e => .error e

/-- The five ownership wrappers of `impl_pointer_types!(&T, Box<T>, Rc<T>,
Arc<T>, Cow<'_, T>)`; the macro generates the same forwarding impl for each. -/
inductive Wrapper where
  | ref | box | rc | arc | cow
  deriving DecidableEq, Repr

/-- The universe of values for which `content.rs` implements `Content`.
`res` carries `some v` for `Ok(v)` and `none` for `Err(_)` (the error payload
is never inspected by the impl, so it is dropped in the embedding). -/
inductive Value where
  | unit
  | str (s : String)
  | vbool (b : Bool)
  | int (n : Int)
  | float (q : ℚ) (f32 : Bool)
  | opt (o : Option Value)
  | res (r : Option Value)
  | list (xs : List Value)
  | map (entries : List (String × Value))
  | wrap (w : Wrapper) (v : Value)

/-- `f32::EPSILON = 2⁻²³`. -/
def f32EPSILON : ℚ := 1 / 2 ^ 23

/-- `f64::EPSILON = 2⁻⁵²`. -/
def f64EPSILON : ℚ := 1 / 2 ^ 52

/-- The machine epsilon of the float width selected by the flag. -/
def floatEps (f32 : Bool) : ℚ := if f32 then f32EPSILON else f64EPSILON

/-- `f32::abs` / `f64::abs` on the embedded (finite) float value. -/
def ratAbs (q : ℚ) : ℚ := if q < 0 then -q else q

/-- `Content::is_truthy`, following each impl in `content.rs`; the trait
default (`true`) applies to `()`. -/
def isTruthy : Value → Bool
  | .unit => true
  | .str s => !s.isEmpty
  | .vbool b => b
  | .int n => n != 0
  | .float q f => decide (floatEps f < ratAbs q)
  | .opt o => o.isSome
  | .res r => r.isSome
  | .list xs => !xs.isEmpty
  | .map es => !es.isEmpty
  | .wrap _ v => isTruthy v

/-- `Content::capacity_hint`.  No impl in `content.rs` reads the `Template`
argument, so it is dropped; string length is the byte length (`str::len`). -/
def capacityHint : Value → Nat
  | .unit => 0
  | .str s => s.utf8ByteSize
  | .vbool _ => 5
  | .int _ => 5
  | .float _ _ => 5
  | .opt (some v) => capacityHint v
  | .opt none => 0
  | .res (some v) => capacityHint v
  | .res none => 0
  | .list _ => 0
  | .map _ => 0
  | .wrap _ v => capacityHint v

/-- `Content::render_escaped`.  Default no-op for `()`, `Vec`, slices and
maps; strings call `write_escaped`, `bool` writes its literal token
unescaped, numbers call `format_unescaped`, `Option`/`Result` delegate to
the payload when present, wrappers forward. -/
def renderEscaped : Value → Sink → Except Unit Sink
  | .unit, s => .ok s
  | .str t, s => s.write (.escaped t)
  | .vbool b, s => s.write (.unescaped (if b then "true" else "false"))
  | .int n, s => s.write (.fmtInt n)
  | .float q f, s => s.write (.fmtFloat q f)
  | .opt (some v), s => renderEscaped v s
  | .opt none, s => .ok s
  | .res (some v), s => renderEscaped v s
  | .res none, s => .ok s
  | .list _, s => .ok s
  | .map _, s => .ok s
  | .wrap _ v, s => renderEscaped v s

/-- `Content::render_unescaped`.  Overridden by strings (`write_unescaped`),
`Option`/`Result` (delegate when present) and wrappers (forward); every other
type uses the trait default `self.render_escaped(encoder)`. -/
def renderUnescaped : Value → Sink → Except Unit Sink
  | .str t, s => s.write (.unescaped t)
  | .opt (some v), s => renderUnescaped v s
  | .opt none, s => .ok s
  | .res (some v), s => renderUnescaped v s
  | .res none, s => .ok s
  | .wrap _ v, s => renderUnescaped v s
  | v, s => renderEscaped v s

/-- `Content::render_cmark`.  Only the two string impls override it (calling
`crate::cmark::encode`); every other impl — including the `impl_pointer_types!`
wrappers, whose macro body omits `render_cmark` — uses the trait default
`self.render_escaped(encoder)`. -/
def renderCmark : Value → Sink → Except Unit Sink
  | .str t, s => s.write (.cmark t)
  | v, s => renderEscaped v s

/-- A bound section, modelled by the write trace `Section::render_once`
produces as a function of the scope value handed to it. -/
def Sect : Type := Value → List Out

/-- `Section::render_once sect v`: feed the section's trace for scope `v`
through the sink, stopping at the first sink failure. -/
def renderOnce (sect : Sect) (v : Value) (s : Sink) : Except Unit Sink :=
  emit s (sect v)

/-- The `for item in self.iter() { section.render_once(item, encoder)?; }`
loop shared by the `Vec<T>` and `&[T]` impls of `render_section`. -/
def renderList (sect : Sect) : List Value → Sink → Except Unit Sink
  | [], s => .ok s
  | x :: rest, s =>
    match renderOnce sect x s with
    | .ok s' => renderList sect rest s'
    | .error e => .error e

/-- `Content::render_section`.  Default (`()`, strings, numbers, bools, maps):
render once with `self` as scope iff truthy.  `Option`/`Result`: render once
with the payload as scope when present, else nothing.  `Vec`/slices: iterate.
Wrappers forward. -/
def renderSection (sect : Sect) : Value → Sink → Except Unit Sink
  | .opt (some v), s => renderOnce sect v s
  | .opt none, s => .ok s
  | .res (some v), s => renderOnce sect v s
  | .res none, s => .ok s
  | .list xs, s => renderList sect xs s
  | .wrap _ v, s => renderSection sect v s
  | v, s => if isTruthy v then renderOnce sect v s else .ok s

/-- `Content::render_inverse`.  Only the wrappers override it (forwarding);
every other type uses the trait default: render once with `self` as scope iff
not truthy. -/
def renderInverse (sect : Sect) : Value → Sink → Except Unit Sink
  | .wrap _ v, s => renderInverse sect v s
  | v, s => if isTruthy v then .ok s else renderOnce sect v s

/-- First-match association-list lookup, modelling `HashMap::get` /
`BTreeMap::get` by key name (map keys are unique). -/
def lookupName : List (String × Value) → String → Option Value
  | [], _ => none
  | (k, v) :: rest, name => if k == name then some v else lookupName rest name

/-- `Content::render_field_escaped`.  Maps look the name up (the hash
argument is ignored by both map impls) and delegate to the value's
`render_escaped`, reporting `Ok(true)`; absent keys give `Ok(false)`;
wrappers forward; every other type uses the default `Ok(false)`. -/
def renderFieldEscaped (h : Nat) (name : String) : Value → Sink → Except Unit (Sink × Bool)
  | .map es, s =>
    match lookupName es name with
    | some v => (renderEscaped v s).map fun s' => (s', true)
    | none => .ok (s, false)
  | .wrap _ v, s => renderFieldEscaped h name v s
  | _, s => .ok (s, false)

/-- `Content::render_field_unescaped`; same dispatch as
`renderFieldEscaped`, delegating to `render_unescaped`. -/
def renderFieldUnescaped (h : Nat) (name : String) : Value → Sink → Except Unit (Sink × Bool)
  | .map es, s =>
    match lookupName es name with
    | some v => (renderUnescaped v s).map fun s' => (s', true)
    | none => .ok (s, false)
  | .wrap _ v, s => renderFieldUnescaped h name v s
  | _, s => .ok (s, false)

/-- `Content::render_field_section`; same dispatch, delegating to the
value's `render_section`. -/
def renderFieldSection (h : Nat) (name : String) (sect : Sect) :
    Value → Sink → Except Unit (Sink × Bool)
  | .map es, s =>
    match lookupName es name with
    | some v => (renderSection sect v s).map fun s' => (s', true)
    | none => .ok (s, false)
  | .wrap _ v, s => renderFieldSection h name sect v s
  | _, s => .ok (s, false)

/-- `Content::render_field_inverse`; same dispatch, delegating to the
value's `render_inverse`. -/
def renderFieldInverse (h : Nat) (name : String) (sect : Sect) :
    Value → Sink → Except Unit (Sink × Bool)
  | .map es, s =>
    match lookupName es name with
    | some v => (renderInverse sect v s).map fun s' => (s', true)
    | none => .ok (s, false)
  | .wrap _ v, s => renderFieldInverse h name sect v s
  | _, s => .ok (s, false)

/-- The section a template block containing only `{{.}}` induces: its trace
for scope `v` is whatever `render_escaped` on `v` writes on a fresh
never-failing sink. -/
def sectDot : Sect := fun v =>
  match renderEscaped v ⟨[], none⟩ with
  | .ok s => s.written
  | .error _ => []

/-- A section whose block is the literal text `A`: it writes one unescaped
chunk whatever the scope. -/
def sectA : Sect := fun _ => [.unescaped "A"]

/-! ## Helper lemmas -/

theorem ratAbs_eq_abs (q : ℚ) : ratAbs q = |q| := by
  by_cases h : q < 0
  · rw [ratAbs, if_pos h, abs_of_neg h]
  · rw [ratAbs, if_neg h, abs_of_nonneg (le_of_not_lt h)]

theorem emit_budget_none (os w : List Out) : emit ⟨w, none⟩ os = .ok ⟨w ++ os, none⟩ := by
  induction os generalizing w with
  | nil => simp [emit]
  | cons o rest ih => simp [emit, Sink.write, ih]

theorem renderOnce_budget_none (sect : Sect) (v : Value) (w : List Out) :
    renderOnce sect v ⟨w, none⟩ = .ok ⟨w ++ sect v, none⟩ :=
  emit_budget_none _ _

theorem renderList_budget_none (sect : Sect) (xs : List Value) (w : List Out) :
    renderList sect xs ⟨w, none⟩ = .ok ⟨w ++ xs.flatMap sect, none⟩ := by
  induction xs generalizing w with
  | nil => simp [renderList]
  | cons x rest ih =>
    simp [renderList, renderOnce_budget_none, ih]

theorem renderList_append (sect : Sect) (xs ys : List Value) (s : Sink) :
    renderList sect (xs ++ ys) s =
      match renderList sect xs s with
      | .ok s' => renderList sect ys s'
      | .error e => .error e := by
  induction xs generalizing s with
  | nil => rfl
  | cons x rest ih =>
    simp only [List.cons_append, renderList]
    cases h : renderOnce sect x s with
    | ok s' => simp [h, ih s']
    | error e => simp [h]

theorem renderEscaped_budget_none :
    ∀ (v : Value) (w : List Out), ∃ w', renderEscaped v ⟨w, none⟩ = .ok ⟨w', none⟩
  | .unit, w => ⟨w, rfl⟩
  | .str t, w => ⟨w ++ [.escaped t], by rfl⟩
  | .vbool b, w => ⟨w ++ [.unescaped (if b then "true" else "false")], by cases b <;> rfl⟩
  | .int n, w => ⟨w ++ [.fmtInt n], by rfl⟩
  | .float q f, w => ⟨w ++ [.fmtFloat q f], by rfl⟩
  | .opt (some v), w => renderEscaped_budget_none v w
  | .opt none, w => ⟨w, rfl⟩
  | .res (some v), w => renderEscaped_budget_none v w
  | .res none, w => ⟨w, rfl⟩
  | .list _, w => ⟨w, rfl⟩
  | .map _, w => ⟨w, rfl⟩
  | .wrap _ v, w => renderEscaped_budget_none v w

theorem renderUnescaped_budget_none :
    ∀ (v : Value) (w : List Out), ∃ w', renderUnescaped v ⟨w, none⟩ = .ok ⟨w', none⟩
  | .str t, w => ⟨w ++ [.unescaped t], by rfl⟩
  | .opt (some v), w => renderUnescaped_budget_none v w
  | .opt none, w => ⟨w, rfl⟩
  | .res (some v), w => renderUnescaped_budget_none v w
  | .res none, w => ⟨w, rfl⟩
  | .wrap _ v, w => renderUnescaped_budget_none v w
  | .unit, w => renderEscaped_budget_none .unit w
  | .vbool b, w => renderEscaped_budget_none (.vbool b) w
  | .int n, w => renderEscaped_budget_none (.int n) w
  | .float q f, w => renderEscaped_budget_none (.float q f) w
  | .list xs, w => renderEscaped_budget_none (.list xs) w
  | .map es, w => renderEscaped_budget_none (.map es) w

theorem renderCmark_budget_none (v : Value) (w : List Out) :
    ∃ w', renderCmark v ⟨w, none⟩ = .ok ⟨w', none⟩ := by
  cases v with
  | str t => exact ⟨w ++ [.cmark t], by rfl⟩
  | unit => exact renderEscaped_budget_none .unit w
  | vbool b => exact renderEscaped_budget_none (.vbool b) w
  | int n => exact renderEscaped_budget_none (.int n) w
  | float q f => exact renderEscaped_budget_none (.float q f) w
  | opt o => exact renderEscaped_budget_none (.opt o) w
  | res r => exact renderEscaped_budget_none (.res r) w
  | list xs => exact renderEscaped_budget_none (.list xs) w
  | map es => exact renderEscaped_budget_none (.map es) w
  | wrap wr v => exact renderEscaped_budget_none (.wrap wr v) w

theorem renderSection_budget_none (sect : Sect) :
    ∀ (v : Value) (w : List Out), ∃ w', renderSection sect v ⟨w, none⟩ = .ok ⟨w', none⟩
  | .opt (some v), w => ⟨w ++ sect v, renderOnce_budget_none sect v w⟩
  | .opt none, w => ⟨w, rfl⟩
  | .res (some v), w => ⟨w ++ sect v, renderOnce_budget_none sect v w⟩
  | .res none, w => ⟨w, rfl⟩
  | .list xs, w => ⟨w ++ xs.flatMap sect, renderList_budget_none sect xs w⟩
  | .wrap _ v, w => renderSection_budget_none sect v w
  | .unit, w => by
    refine ⟨w ++ sect .unit, ?_⟩
    simpa [renderSection] using renderOnce_budget_none sect .unit w
  | .str t, w => by
    by_cases h : isTruthy (.str t) = true
    · exact ⟨w ++ sect (.str t), by simp [renderSection, h, renderOnce_budget_none]⟩
    · exact ⟨w, by simp [renderSection, h]⟩
  | .vbool b, w => by
    by_cases h : isTruthy (.vbool b) = true
    · exact ⟨w ++ sect (.vbool b), by simp [renderSection, h, renderOnce_budget_none]⟩
    · exact ⟨w, by simp [renderSection, h]⟩
  | .int n, w => by
    by_cases h : isTruthy (.int n) = true
    · exact ⟨w ++ sect (.int n), by simp [renderSection, h, renderOnce_budget_none]⟩
    · exact ⟨w, by simp [renderSection, h]⟩
  | .float q f, w => by
    by_cases h : isTruthy (.float q f) = true
    · exact ⟨w ++ sect (.float q f), by simp [renderSection, h, renderOnce_budget_none]⟩
    · exact ⟨w, by simp [renderSection, h]⟩
  | .map es, w => by
    by_cases h : isTruthy (.map es) = true
    · exact ⟨w ++ sect (.map es), by simp [renderSection, h, renderOnce_budget_none]⟩
    · exact ⟨w, by simp [renderSection, h]⟩

theorem renderInverse_budget_none (sect : Sect) :
    ∀ (v : Value) (w : List Out), ∃ w', renderInverse sect v ⟨w, none⟩ = .ok ⟨w', none⟩
  | .wrap _ v, w => renderInverse_budget_none sect v w
  | .unit, w => ⟨w, by simp [renderInverse, isTruthy]⟩
  | .str t, w => by
    by_cases h : isTruthy (.str t) = true
    · exact ⟨w, by simp [renderInverse, h]⟩
    · exact ⟨w ++ sect (.str t), by simp [renderInverse, h, renderOnce_budget_none]⟩
  | .vbool b, w => by
    by_cases h : isTruthy (.vbool b) = true
    · exact ⟨w, by simp [renderInverse, h]⟩
    · exact ⟨w ++ sect (.vbool b), by simp [renderInverse, h, renderOnce_budget_none]⟩
  | .int n, w => by
    by_cases h : isTruthy (.int n) = true
    · exact ⟨w, by simp [renderInverse, h]⟩
    · exact ⟨w ++ sect (.int n), by simp [renderInverse, h, renderOnce_budget_none]⟩
  | .float q f, w => by
    by_cases h : isTruthy (.float q f) = true
    · exact ⟨w, by simp [renderInverse, h]⟩
    · exact ⟨w ++ sect (.float q f), by simp [renderInverse, h, renderOnce_budget_none]⟩
  | .opt o, w => by
    by_cases h : isTruthy (.opt o) = true
    · exact ⟨w, by simp [renderInverse, h]⟩
    · exact ⟨w ++ sect (.opt o), by simp [renderInverse, h, renderOnce_budget_none]⟩
  | .res r, w => by
    by_cases h : isTruthy (.res r) = true
    · exact ⟨w, by simp [renderInverse, h]⟩
    · exact ⟨w ++ sect (.res r), by simp [renderInverse, h, renderOnce_budget_none]⟩
  | .list xs, w => by
    by_cases h : isTruthy (.list xs) = true
    · exact ⟨w, by simp [renderInverse, h]⟩
    · exact ⟨w ++ sect (.list xs), by simp [renderInverse, h, renderOnce_budget_none]⟩
  | .map es, w => by
    by_cases h : isTruthy (.map es) = true
    · exact ⟨w, by simp [renderInverse, h]⟩
    · exact ⟨w ++ sect (.map es), by simp [renderInverse, h, renderOnce_budget_none]⟩


theorem renderFieldEscaped_budget_none (h : Nat) (name : String) :
    ∀ (v : Value) (w : List Out),
      ∃ w' b, renderFieldEscaped h name v ⟨w, none⟩ = .ok (⟨w', none⟩, b)
  | .map es, w => by
    cases hl : lookupName es name with
    | none => exact ⟨w, false, by simp [renderFieldEscaped, hl]⟩
    | some v =>
      obtain ⟨w', hw⟩ := renderEscaped_budget_none v w
      exact ⟨w', true, by simp [renderFieldEscaped, hl, hw, Except.map]⟩
  | .wrap _ v, w => renderFieldEscaped_budget_none h name v w
  | .unit, w => ⟨w, false, rfl⟩
  | .str t, w => ⟨w, false, rfl⟩
  | .vbool b, w => ⟨w, false, rfl⟩
  | .int n, w => ⟨w, false, rfl⟩
  | .float q f, w => ⟨w, false, rfl⟩
  | .opt o, w => ⟨w, false, rfl⟩
  | .res r, w => ⟨w, false, rfl⟩
  | .list xs, w => ⟨w, false, rfl⟩

theorem renderFieldUnescaped_budget_none (h : Nat) (name : String) :
    ∀ (v : Value) (w : List Out),
      ∃ w' b, renderFieldUnescaped h name v ⟨w, none⟩ = .ok (⟨w', none⟩, b)
  | .map es, w => by
    cases hl : lookupName es name with
    | none => exact ⟨w, false, by simp [renderFieldUnescaped, hl]⟩
    | some v =>
      obtain ⟨w', hw⟩ := renderUnescaped_budget_none v w
      exact ⟨w', true, by simp [renderFieldUnescaped, hl, hw, Except.map]⟩
  | .wrap _ v, w => renderFieldUnescaped_budget_none h name v w
  | .unit, w => ⟨w, false, rfl⟩
  | .str t, w => ⟨w, false, rfl⟩
  | .vbool b, w => ⟨w, false, rfl⟩
  | .int n, w => ⟨w, false, rfl⟩
  | .float q f, w => ⟨w, false, rfl⟩
  | .opt o, w => ⟨w, false, rfl⟩
  | .res r, w => ⟨w, false, rfl⟩
  | .list xs, w => ⟨w, false, rfl⟩

theorem renderFieldSection_budget_none (h : Nat) (name : String) (sect : Sect) :
    ∀ (v : Value) (w : List Out),
      ∃ w' b, renderFieldSection h name sect v ⟨w, none⟩ = .ok (⟨w', none⟩, b)
  | .map es, w => by
    cases hl : lookupName es name with
    | none => exact ⟨w, false, by simp [renderFieldSection, hl]⟩
    | some v =>
      obtain ⟨w', hw⟩ := renderSection_budget_none sect v w
      exact ⟨w', true, by simp [renderFieldSection, hl, hw, Except.map]⟩
  | .wrap _ v, w => renderFieldSection_budget_none h name sect v w
  | .unit, w => ⟨w, false, rfl⟩
  | .str t, w => ⟨w, false, rfl⟩
  | .vbool b, w => ⟨w, false, rfl⟩
  | .int n, w => ⟨w, false, rfl⟩
  | .float q f, w => ⟨w, false, rfl⟩
  | .opt o, w => ⟨w, false, rfl⟩
  | .res r, w => ⟨w, false, rfl⟩
  | .list xs, w => ⟨w, false, rfl⟩

theorem renderFieldInverse_budget_none (h : Nat) (name : String) (sect : Sect) :
    ∀ (v : Value) (w : List Out),
      ∃ w' b, renderFieldInverse h name sect v ⟨w, none⟩ = .ok (⟨w', none⟩, b)
  | .map es, w => by
    cases hl : lookupName es name with
    | none => exact ⟨w, false, by simp [renderFieldInverse, hl]⟩
    | some v =>
      obtain ⟨w', hw⟩ := renderInverse_budget_none sect v w
      exact ⟨w', true, by simp [renderFieldInverse, hl, hw, Except.map]⟩
  | .wrap _ v, w => renderFieldInverse_budget_none h name sect v w
  | .unit, w => ⟨w, false, rfl⟩
  | .str t, w => ⟨w, false, rfl⟩
  | .vbool b, w => ⟨w, false, rfl⟩
  | .int n, w => ⟨w, false, rfl⟩
  | .float q f, w => ⟨w, false, rfl⟩
  | .opt o, w => ⟨w, false, rfl⟩
  | .res r, w => ⟨w, false, rfl⟩
  | .list xs, w => ⟨w, false, rfl⟩

/-! ## Claims -/

/-- Claim C1, counterexample: the claim says every operation of the `Content`
contract on a wrapped value is byte-identical to the same operation on the
unwrapped value, but `impl_pointer_types!` does not forward `render_cmark`,
so a wrapped string renders through `write_escaped` while the unwrapped
string renders through the CommonMark transform. -/
theorem c1_wrap_cmark_counterexample :
    renderCmark (.wrap .ref (.str "<b>")) ⟨[], none⟩ ≠
      renderCmark (.str "<b>") ⟨[], none⟩ := by
  simp [renderCmark, renderEscaped, Sink.write]

/-- Claim C1 (amended): every operation of the `Content` contract except
`render_cmark` — truthiness, capacity hint, escaped and unescaped rendering,
section and inverse rendering, and the four field-dispatch operations —
invoked on a value wrapped in any of the five ownership wrappers is identical
to the same operation invoked directly on the wrapped value; `render_cmark`
on a wrapper instead uses the trait default and equals `render_escaped` of
the wrapped value. -/
theorem c1_wrapper_transparency (w : Wrapper) (v : Value) (h : Nat) (name : String)
    (sect : Sect) (s : Sink) :
    isTruthy (.wrap w v) = isTruthy v ∧
    capacityHint (.wrap w v) = capacityHint v ∧
    renderEscaped (.wrap w v) s = renderEscaped v s ∧
    renderUnescaped (.wrap w v) s = renderUnescaped v s ∧
    renderSection sect (.wrap w v) s = renderSection sect v s ∧
    renderInverse sect (.wrap w v) s = renderInverse sect v s ∧
    renderFieldEscaped h name (.wrap w v) s = renderFieldEscaped h name v s ∧
    renderFieldUnescaped h name (.wrap w v) s = renderFieldUnescaped h name v s ∧
    renderFieldSection h name sect (.wrap w v) s = renderFieldSection h name sect v s ∧
    renderFieldInverse h name sect (.wrap w v) s = renderFieldInverse h name sect v s ∧
    renderCmark (.wrap w v) s = renderEscaped v s :=
  ⟨rfl, rfl, rfl, rfl, rfl, rfl, rfl, rfl, rfl, rfl, rfl⟩

/-- Claim C2, counterexample: with a present payload, `Option`'s section
render calls `render_once` on the payload unconditionally, while
`render_section` invoked directly on a falsy payload renders nothing, so the
two are not equivalent (here at `Some(false)` under a section whose block
interpolates the scope). -/
theorem c2_option_section_counterexample :
    renderSection sectDot (.opt (some (.vbool false))) ⟨[], none⟩ ≠
      renderSection sectDot (.vbool false) ⟨[], none⟩ := by
  simp [renderSection, renderOnce, sectDot, renderEscaped, Sink.write, emit, isTruthy]

/-- Claim C2 (amended): `Option`'s `render_section` with an absent payload
writes zero bytes, returns `Ok`, and never invokes the nested section; with a
present payload `Some(v)` it renders the nested section exactly once with `v`
as the new scope (which coincides with invoking `render_section` directly on
`v` only when `v` is truthy and keeps the default section behavior). -/
theorem c2_option_section (sect : Sect) (v : Value) (s : Sink) :
    renderSection sect (.opt none) s = .ok s ∧
    renderSection sect (.opt (some v)) s = renderOnce sect v s :=
  ⟨rfl, rfl⟩

/-- Claim C3, counterexample: the inverse render of an empty sequence renders
the section once with the empty sequence itself as the new scope, which is
not byte-identical to rendering the inverse with a falsy scalar when the
section's output depends on the scope (here a block that interpolates the
scope: the empty sequence writes nothing, the falsy scalar `0` formats as a
number). -/
theorem c3_empty_inverse_counterexample :
    renderInverse sectDot (.list []) ⟨[], none⟩ ≠
      renderInverse sectDot (.int 0) ⟨[], none⟩ := by
  simp [renderInverse, isTruthy, renderOnce, sectDot, renderEscaped, Sink.write, emit]

/-- Claim C3 (amended): for a sequence, `render_section` output on a
never-failing sink equals the concatenation, in original element order, of
the trace of rendering the section once with each element as the new scope;
the empty sequence's section render writes zero bytes on any sink, and its
inverse render renders the section exactly once with the empty sequence as
the new scope (byte-identical to a falsy scalar's inverse render only when
the section's output does not depend on the scope value). -/
theorem c3_sequence_section (sect : Sect) (xs : List Value) (w : List Out) (s : Sink) :
    renderSection sect (.list xs) ⟨w, none⟩ = .ok ⟨w ++ xs.flatMap sect, none⟩ ∧
    (∀ x, renderOnce sect x ⟨w, none⟩ = .ok ⟨w ++ sect x, none⟩) ∧
    renderSection sect (.list []) s = .ok s ∧
    renderInverse sect (.list []) s = renderOnce sect (.list []) s :=
  ⟨renderList_budget_none sect xs w, fun x => renderOnce_budget_none sect x w, rfl, rfl⟩

/-- Claim C4: for a string-keyed map, each of the four field render
operations ignores the supplied hash entirely and looks up by name; when the
name is present the matched value's corresponding render operation is
delegated to with the outcome mapped to `Ok(true)`, and when it is absent
the result is `Ok(false)` with no output and never an error. -/
theorem c4_map_field_dispatch (es : List (String × Value)) (h h' : Nat) (name : String)
    (sect : Sect) (s : Sink) :
    (renderFieldEscaped h name (.map es) s = renderFieldEscaped h' name (.map es) s ∧
      renderFieldUnescaped h name (.map es) s = renderFieldUnescaped h' name (.map es) s ∧
      renderFieldSection h name sect (.map es) s = renderFieldSection h' name sect (.map es) s ∧
      renderFieldInverse h name sect (.map es) s = renderFieldInverse h' name sect (.map es) s) ∧
    (lookupName es name = none →
      renderFieldEscaped h name (.map es) s = .ok (s, false) ∧
      renderFieldUnescaped h name (.map es) s = .ok (s, false) ∧
      renderFieldSection h name sect (.map es) s = .ok (s, false) ∧
      renderFieldInverse h name sect (.map es) s = .ok (s, false)) ∧
    (∀ v, lookupName es name = some v →
      renderFieldEscaped h name (.map es) s = (renderEscaped v s).map (fun t => (t, true)) ∧
      renderFieldUnescaped h name (.map es) s = (renderUnescaped v s).map (fun t => (t, true)) ∧
      renderFieldSection h name sect (.map es) s = (renderSection sect v s).map (fun t => (t, true)) ∧
      renderFieldInverse h name sect (.map es) s = (renderInverse sect v s).map (fun t => (t, true))) := by
  refine ⟨⟨rfl, rfl, rfl, rfl⟩, fun hn => ?_, fun v hv => ?_⟩
  · exact ⟨by simp [renderFieldEscaped, hn], by simp [renderFieldUnescaped, hn],
      by simp [renderFieldSection, hn], by simp [renderFieldInverse, hn]⟩
  · exact ⟨by simp [renderFieldEscaped, hv], by simp [renderFieldUnescaped, hv],
      by simp [renderFieldSection, hv], by simp [renderFieldInverse, hv]⟩

/-- Witness for C4 at a concrete map: the key `k` is present (and delegates
to the string's escaped render), the key `z` is absent (and yields
`Ok(false)` with no output); both hypotheses are discharged by computation. -/
theorem c4_map_field_dispatch_witness :
    renderFieldEscaped 7 "k" (.map [("k", .str "x")]) ⟨[], none⟩ =
      (renderEscaped (.str "x") ⟨[], none⟩).map (fun t => (t, true)) ∧
    renderFieldEscaped 7 "z" (.map [("k", .str "x")]) ⟨[], none⟩ = .ok (⟨[], none⟩, false) :=
  ⟨((c4_map_field_dispatch [("k", .str "x")] 7 7 "k" sectA ⟨[], none⟩).2.2
      (.str "x") (by simp [lookupName])).1,
    ((c4_map_field_dispatch [("k", .str "x")] 7 7 "z" sectA ⟨[], none⟩).2.1
      (by simp [lookupName])).1⟩

/-- Claim C5: the content layer introduces no error of its own — on a
never-failing sink every render operation returns `Ok` — and the first sink
failure aborts the render call immediately: a sequence section render whose
sink fails while rendering element `x` (after the prefix rendered
successfully) returns that failure unchanged, independently of the elements
that follow `x`. -/
theorem c5_first_failure_aborts (sect : Sect) (pre suf : List Value) (x : Value)
    (h : Nat) (name : String) (s s' : Sink)
    (hpre : renderList sect pre s = .ok s')
    (hx : renderOnce sect x s' = .error ()) :
    renderSection sect (.list (pre ++ x :: suf)) s = .error () ∧
    (∀ v (w : List Out), ∃ w', renderEscaped v ⟨w, none⟩ = .ok ⟨w', none⟩) ∧
    (∀ v (w : List Out), ∃ w', renderUnescaped v ⟨w, none⟩ = .ok ⟨w', none⟩) ∧
    (∀ v (w : List Out), ∃ w', renderCmark v ⟨w, none⟩ = .ok ⟨w', none⟩) ∧
    (∀ v (w : List Out), ∃ w', renderSection sect v ⟨w, none⟩ = .ok ⟨w', none⟩) ∧
    (∀ v (w : List Out), ∃ w', renderInverse sect v ⟨w, none⟩ = .ok ⟨w', none⟩) ∧
    (∀ v (w : List Out), ∃ w' b, renderFieldEscaped h name v ⟨w, none⟩ = .ok (⟨w', none⟩, b)) ∧
    (∀ v (w : List Out), ∃ w' b, renderFieldUnescaped h name v ⟨w, none⟩ = .ok (⟨w', none⟩, b)) ∧
    (∀ v (w : List Out), ∃ w' b, renderFieldSection h name sect v ⟨w, none⟩ = .ok (⟨w', none⟩, b)) ∧
    (∀ v (w : List Out), ∃ w' b, renderFieldInverse h name sect v ⟨w, none⟩ = .ok (⟨w', none⟩, b)) := by
  refine ⟨?_, renderEscaped_budget_none, renderUnescaped_budget_none,
    renderCmark_budget_none, renderSection_budget_none sect, renderInverse_budget_none sect,
    renderFieldEscaped_budget_none h name, renderFieldUnescaped_budget_none h name,
    renderFieldSection_budget_none h name sect, renderFieldInverse_budget_none h name sect⟩
  show renderList sect (pre ++ x :: suf) s = .error ()
  rw [renderList_append, hpre]
  simp [renderList, hx]

/-- Witness for C5: a sink with a budget of one write fails on the second
element of a three-element sequence under a constant one-write section; the
prefix renders, the failing element returns the sink error, and the whole
section render is that error. -/
theorem c5_first_failure_aborts_witness :
    renderSection sectA (.list ([.unit] ++ .unit :: [.unit])) ⟨[], some 1⟩ = .error () :=
  (c5_first_failure_aborts sectA [.unit] [.unit] .unit 0 "k" ⟨[], some 1⟩
    ⟨[.unescaped "A"], some 0⟩ (by rfl) (by rfl)).1

/-- Claim C6: for the integer family `is_truthy` holds iff the value is
non-zero, and for `f32`/`f64` it holds iff the absolute value exceeds the
machine epsilon of the width; `0` and `0.0` are falsy, and `1e-300` as `f64`
is falsy because it does not exceed `f64::EPSILON`. -/
theorem c6_numeric_truthiness (n : Int) (q : ℚ) (f : Bool) :
    (isTruthy (.int n) = true ↔ n ≠ 0) ∧
    (isTruthy (.float q f) = true ↔ floatEps f < |q|) ∧
    isTruthy (.int 0) = false ∧
    isTruthy (.float 0 f) = false ∧
    isTruthy (.float (1 / 10 ^ 300) false) = false := by
  refine ⟨by simp [isTruthy], by simp [isTruthy, ratAbs_eq_abs], by simp [isTruthy], ?_, ?_⟩
  · simp only [isTruthy, decide_eq_false_iff_not, not_lt, ratAbs_eq_abs, abs_zero]
    cases f <;> norm_num [floatEps, f32EPSILON, f64EPSILON]
  · simp only [isTruthy, floatEps, f64EPSILON, Bool.false_eq_true, if_false,
      decide_eq_false_iff_not, not_lt, ratAbs_eq_abs]
    rw [abs_of_pos (by norm_num)]
    norm_num

/-- Claim C7: the unit type keeps every contract default: it is truthy, its
capacity hint is 0, its escaped render writes nothing and returns `Ok`,
unescaped and cmark renders equal the escaped render, its section render
renders the section exactly once with itself as the new scope (it is
truthy), its inverse render writes nothing, and all four field operations
write nothing and return `Ok(false)`. -/
theorem c7_unit_defaults (sect : Sect) (h : Nat) (name : String) (s : Sink) :
    isTruthy .unit = true ∧
    capacityHint .unit = 0 ∧
    renderEscaped .unit s = .ok s ∧
    renderUnescaped .unit s = renderEscaped .unit s ∧
    renderCmark .unit s = renderEscaped .unit s ∧
    renderSection sect .unit s = renderOnce sect .unit s ∧
    renderInverse sect .unit s = .ok s ∧
    renderFieldEscaped h name .unit s = .ok (s, false) ∧
    renderFieldUnescaped h name .unit s = .ok (s, false) ∧
    renderFieldSection h name sect .unit s = .ok (s, false) ∧
    renderFieldInverse h name sect .unit s = .ok (s, false) :=
  ⟨rfl, rfl, rfl, rfl, rfl, rfl, rfl, rfl, rfl, rfl, rfl⟩

/-- Claim C8: `Option` and `Result` do not override `render_inverse`, so for
`None` and for `Err` the inverse render renders the section exactly once
with the adapter itself as the new scope, while for `Some(v)` and `Ok(v)` it
writes nothing, regardless of the truthiness of `v`. -/
theorem c8_adapter_inverse (sect : Sect) (v : Value) (s : Sink) :
    renderInverse sect (.opt none) s = renderOnce sect (.opt none) s ∧
    renderInverse sect (.res none) s = renderOnce sect (.res none) s ∧
    renderInverse sect (.opt (some v)) s = .ok s ∧
    renderInverse sect (.res (some v)) s = .ok s :=
  ⟨rfl, rfl, rfl, rfl⟩

/-- Claim C9: `Option` and `Result` do not forward field dispatch — every
field render operation on them returns `Ok(false)` with zero bytes written,
even when the present payload is a map that itself reports the requested
field as found. -/
theorem c9_adapter_fields (h : Nat) (name : String) (o r : Option Value)
    (sect : Sect) (s : Sink) :
    renderFieldEscaped h name (.opt o) s = .ok (s, false) ∧
    renderFieldUnescaped h name (.opt o) s = .ok (s, false) ∧
    renderFieldSection h name sect (.opt o) s = .ok (s, false) ∧
    renderFieldInverse h name sect (.opt o) s = .ok (s, false) ∧
    renderFieldEscaped h name (.res r) s = .ok (s, false) ∧
    renderFieldUnescaped h name (.res r) s = .ok (s, false) ∧
    renderFieldSection h name sect (.res r) s = .ok (s, false) ∧
    renderFieldInverse h name sect (.res r) s = .ok (s, false) ∧
    renderFieldEscaped h "k" (.opt (some (.map [("k", .str "x")]))) s = .ok (s, false) ∧
    renderFieldEscaped h "k" (.map [("k", .str "x")]) s =
      (renderEscaped (.str "x") s).map (fun t => (t, true)) := by
  refine ⟨rfl, rfl, rfl, rfl, rfl, rfl, rfl, rfl, rfl, ?_⟩
  simp [renderFieldEscaped, lookupName]

/-- Claim C10: the ownership wrappers do not forward `render_cmark`: on a
wrapper it uses the trait default and equals `render_escaped` of the wrapped
value, so a wrapped string renders as HTML-escaped text while the unwrapped
string goes through the CommonMark transform, and the two traces differ. -/
theorem c10_wrapper_cmark_not_forwarded (w : Wrapper) (v : Value) (t : String) (s : Sink) :
    renderCmark (.wrap w v) s = renderEscaped v s ∧
    renderCmark (.wrap w (.str t)) s = s.write (.escaped t) ∧
    renderCmark (.str t) s = s.write (.cmark t) ∧
    renderCmark (.wrap .ref (.str "a")) ⟨[], none⟩ ≠ renderCmark (.str "a") ⟨[], none⟩ := by
  refine ⟨rfl, rfl, rfl, ?_⟩
  simp [renderCmark, renderEscaped, Sink.write]

end Ramhorns
